import Mathlib

/-!
Verification of `radiation_unit_conversion/units.py` against its specification.

The quantity subsystem (astropy units) is modelled shallowly: a unit is a
rational scale factor to SI base units together with a vector of base-dimension
exponents (length, mass, time, angle, photon count); a quantity is a rational
magnitude paired with a unit.  `Quantity.to` performs the dimensionally checked
conversion (`astropy.units.Quantity.to`), failing with a dimension-mismatch
error on incompatible dimensions.  Divisions whose divisor is a runtime input
are modelled as checked, failing with a division-by-zero error when the divisor
magnitude is zero; divisions by the statically nonzero literal constants of the
source are plain rational division.  Magnitudes and constants are exact
rationals (the source's decimal literals are exactly representable).
-/

namespace RadiationUnits

/-- Vector of base-dimension exponents: length, mass, time, angle, photon count. -/
structure Dims where
  length : Int
  mass : Int
  time : Int
  angle : Int
  photon : Int
deriving DecidableEq

def Dims.mul (a b : Dims) : Dims :=
  ⟨a.length + b.length, a.mass + b.mass, a.time + b.time, a.angle + b.angle, a.photon + b.photon⟩

def Dims.div (a b : Dims) : Dims :=
  ⟨a.length - b.length, a.mass - b.mass, a.time - b.time, a.angle - b.angle, a.photon - b.photon⟩

def Dims.npow (a : Dims) (n : Nat) : Dims :=
  ⟨a.length * n, a.mass * n, a.time * n, a.angle * n, a.photon * n⟩

def Dims.one : Dims := ⟨0, 0, 0, 0, 0⟩

/-- A physical unit: a scale factor to the coherent SI unit of its dimension,
and the dimension exponent vector. -/
structure AUnit where
  scale : ℚ
  dims : Dims
deriving DecidableEq

def AUnit.mul (a b : AUnit) : AUnit := ⟨a.scale * b.scale, a.dims.mul b.dims⟩

def AUnit.div (a b : AUnit) : AUnit := ⟨a.scale / b.scale, a.dims.div b.dims⟩

def AUnit.npow (a : AUnit) (n : Nat) : AUnit := ⟨a.scale ^ n, a.dims.npow n⟩

def AUnit.one : AUnit := ⟨1, Dims.one⟩

/-- A physical quantity: magnitude (`.value` in astropy) and unit. -/
structure Quantity where
  value : ℚ
  unit : AUnit
deriving DecidableEq

/-- Errors propagated from the quantity subsystem. -/
inductive UErr where
  | dimMismatch
  | divZero
deriving DecidableEq

/-- `astropy.units.Quantity.to`: dimensionally checked unit conversion. -/
def Quantity.to (q : Quantity) (tgt : AUnit) : Except UErr Quantity :=
  if q.unit.dims = tgt.dims then .ok ⟨q.value * q.unit.scale / tgt.scale, tgt⟩
  else .error .dimMismatch

/-- scalar * quantity -/
def Quantity.smul (c : ℚ) (q : Quantity) : Quantity := ⟨c * q.value, q.unit⟩

/-- quantity * scalar -/
def Quantity.mulc (q : Quantity) (c : ℚ) : Quantity := ⟨q.value * c, q.unit⟩

/-- quantity / scalar (all source call sites have a statically nonzero literal) -/
def Quantity.divc (q : Quantity) (c : ℚ) : Quantity := ⟨q.value / c, q.unit⟩

/-- quantity * quantity: magnitudes multiply, units combine algebraically -/
def Quantity.mul (a b : Quantity) : Quantity := ⟨a.value * b.value, a.unit.mul b.unit⟩

/-- quantity / quantity, checked against a zero divisor magnitude -/
def Quantity.qdiv (a b : Quantity) : Except UErr Quantity :=
  if b.value = 0 then .error .divZero
  else .ok ⟨a.value / b.value, a.unit.div b.unit⟩

/-- scalar / quantity, checked against a zero divisor magnitude -/
def Quantity.cdivq (c : ℚ) (b : Quantity) : Except UErr Quantity :=
  if b.value = 0 then .error .divZero
  else .ok ⟨c / b.value, AUnit.one.div b.unit⟩

/-- quantity ^ n -/
def Quantity.npow (q : Quantity) (n : Nat) : Quantity := ⟨q.value ^ n, q.unit.npow n⟩

/- Named units used by the source (`astropy.units`). -/

def lengthDims : Dims := ⟨1, 0, 0, 0, 0⟩

def timeDims : Dims := ⟨0, 0, 1, 0, 0⟩

def frequencyDims : Dims := ⟨0, 0, -1, 0, 0⟩

/-- dims of W·m⁻²·Hz⁻¹ (= kg·s⁻²) -/
def fnuDims : Dims := ⟨0, 1, -2, 0, 0⟩

/-- dims of W·m⁻²·µm⁻¹ (= kg·m⁻¹·s⁻³) -/
def flambdaDims : Dims := ⟨-1, 1, -3, 0, 0⟩

def meter : AUnit := ⟨1, lengthDims⟩

def micron : AUnit := ⟨1 / 10 ^ 6, lengthDims⟩

def angstrom : AUnit := ⟨1 / 10 ^ 10, lengthDims⟩

def nanometer : AUnit := ⟨1 / 10 ^ 9, lengthDims⟩

def second : AUnit := ⟨1, timeDims⟩

def hertz : AUnit := ⟨1, frequencyDims⟩

def meterPerSecond : AUnit := ⟨1, ⟨1, 0, -1, 0, 0⟩⟩

def micronPerSecond : AUnit := ⟨1 / 10 ^ 6, ⟨1, 0, -1, 0, 0⟩⟩

def wattPerM2 : AUnit := ⟨1, ⟨0, 1, -3, 0, 0⟩⟩

def wattPerM2Hz : AUnit := ⟨1, fnuDims⟩

def wattPerM2Micron : AUnit := ⟨10 ^ 6, flambdaDims⟩

def ergPerSCm2Hz : AUnit := ⟨1 / 10 ^ 3, fnuDims⟩

def ergPerSCm2Angstrom : AUnit := ⟨10 ^ 7, flambdaDims⟩

def jansky : AUnit := ⟨1 / 10 ^ 26, fnuDims⟩

/-- Rayleigh (photon·m⁻²·s⁻¹·sr⁻¹ based).  No source function ever converts a
Rayleigh-tagged quantity, so its numeric scale is never consulted; it serves
as an opaque unit tag, as in the fixed-constant converters. -/
def rayleighU : AUnit := ⟨1, ⟨-2, 0, -1, -2, 1⟩⟩

/-- photon·cm⁻²·s⁻¹·Å⁻¹·arcsec⁻², opaque tag as for `rayleighU`. -/
def photonCm2SAngArcsec2 : AUnit := ⟨1, ⟨-3, 0, -1, -2, 1⟩⟩

/-- photon·cm⁻²·s⁻¹·Å⁻¹·sr⁻¹, opaque tag as for `rayleighU`. -/
def photonCm2SAngSr : AUnit := ⟨1, ⟨-3, 0, -1, -2, 1⟩⟩

/-- `astropy.constants.c` = 299792458 m/s exactly. -/
def speed_of_light : Quantity := ⟨299792458, meterPerSecond⟩

/- The generic dimensional converters (units.py lines 15-118). -/

/-- `fnu2flambda(input_flux, input_wavelength, output_units)`:
convert flux to W/m²/Hz, wavelength to micron, take c in micron/s,
compute `constant.value * input_converted.value / wlen_converted.value**2`,
attach W/m²/µm, convert to the output units. -/
def fnu2flambda (input_flux input_wavelength : Quantity) (output_units : AUnit) :
    Except UErr Quantity :=
  (input_flux.to wattPerM2Hz).bind fun input_converted =>
  (input_wavelength.to micron).bind fun wlen_converted =>
  (speed_of_light.to micronPerSecond).bind fun constant =>
  if wlen_converted.value ^ 2 = 0 then .error .divZero
  else
    (Quantity.mk (constant.value * input_converted.value / wlen_converted.value ^ 2)
      wattPerM2Micron).to output_units

/-- `flambda2fnu(input_flux, input_wavelength, output_units)`:
convert flux to W/m²/µm, wavelength to micron, take c in micron/s,
compute `input_converted.value * wlen_converted.value**2 / constant.value`
(the divisor is the statically nonzero speed of light),
attach W/m²/Hz, convert to the output units. -/
def flambda2fnu (input_flux input_wavelength : Quantity) (output_units : AUnit) :
    Except UErr Quantity :=
  (input_flux.to wattPerM2Micron).bind fun input_converted =>
  (input_wavelength.to micron).bind fun wlen_converted =>
  (speed_of_light.to micronPerSecond).bind fun constant =>
    (Quantity.mk (input_converted.value * wlen_converted.value ^ 2 / constant.value)
      wattPerM2Hz).to output_units

/-- Specification-side description of `fnu2flambda`, following the spec's
algorithm wording: normalize flux to W·m⁻²·Hz⁻¹, normalize wavelength to
micron, multiply the flux magnitude by (speed of light in micron per second,
2.99792458e14, as a literal) divided by the wavelength magnitude squared,
attach the unit W·m⁻²·µm⁻¹, convert to the output unit.  The zero-wavelength
guard mirrors the implementation's division semantics. -/
def fnu2flambda_spec (input_flux input_wavelength : Quantity) (output_units : AUnit) :
    Except UErr Quantity :=
  (input_flux.to wattPerM2Hz).bind fun flux_norm =>
  (input_wavelength.to micron).bind fun wlen_norm =>
  if wlen_norm.value ^ 2 = 0 then .error .divZero
  else
    (Quantity.mk (2.99792458e14 * flux_norm.value / wlen_norm.value ^ 2)
      wattPerM2Micron).to output_units

/-- `wavelength2frequency(input_wavelength, output_units)`:
`input_wavelength.to(u.m)` (result discarded, exception propagates), then
`(cst.c / input_wavelength).to(output_units)`. -/
def wavelength2frequency (input_wavelength : Quantity) (output_units : AUnit) :
    Except UErr Quantity :=
  (input_wavelength.to meter).bind fun _ =>
  (speed_of_light.qdiv input_wavelength).bind fun q => q.to output_units

/-- `frequency2wavelength(input_frequency, output_units)`:
`input_frequency.to(u.m)` (result discarded, exception propagates), then
`(cst.c / input_frequency).to(output_units)`. -/
def frequency2wavelength (input_frequency : Quantity) (output_units : AUnit) :
    Except UErr Quantity :=
  (input_frequency.to meter).bind fun _ =>
  (speed_of_light.qdiv input_frequency).bind fun q => q.to output_units

/- The STScI fixed-constant converters (units.py lines 122-715). -/

/-- `1000 * input_flux` -/
def watt_metersquared2erg_cmsquared_second (input_flux : Quantity) : Quantity :=
  Quantity.smul 1000 input_flux

/-- `input_flux / 1000` -/
def erg_cmsquared_second2watt_metersquared (input_flux : Quantity) : Quantity :=
  input_flux.divc 1000

/-- `1000 * input_flux` -/
def watt_metersquared_hertz2erg_cmsquared_second_hertz (input_flux : Quantity) : Quantity :=
  Quantity.smul 1000 input_flux

/-- `input_flux / 1000` -/
def erg_cmsquared_secondhertz2watt_metersquaredhertz (input_flux : Quantity) : Quantity :=
  input_flux.divc 1000

/-- `constant * input_flux / input_wavelength**2`, constant = 2.99792458e21 -/
def watt_metersquared_hertz2erg_cmsquared_second_angstrom
    (input_flux input_wavelength : Quantity) : Except UErr Quantity :=
  (Quantity.smul 2.99792458e21 input_flux).qdiv (input_wavelength.npow 2)

/-- `input_flux * input_wavelength**2 / constant`, constant = 2.99792458e21 -/
def erg_cmsquared_second_angstrom2watt_metersquared_hertz
    (input_flux input_wavelength : Quantity) : Quantity :=
  (input_flux.mul (input_wavelength.npow 2)).divc 2.99792458e21

/-- `constant * input_flux/input_wavelength**2`, constant = 2.99792458e14 -/
def watt_metersquared_hertz2watt_metersquared_micron
    (input_flux input_wavelength : Quantity) : Except UErr Quantity :=
  (Quantity.smul 2.99792458e14 input_flux).qdiv (input_wavelength.npow 2)

/-- `input_flux * input_wavelength**2 / constant`, constant = 2.99792458e14 -/
def watt_metersquared_micron2watt_metersquared_hertz
    (input_flux input_wavelength : Quantity) : Quantity :=
  (input_flux.mul (input_wavelength.npow 2)).divc 2.99792458e14

/-- `constant * input_flux/input_wavelength`, constant = 1.50918896e22 -/
def erg_cmsquared_hertz2photon_cmsquared_second_micron
    (input_flux input_wavelength : Quantity) : Except UErr Quantity :=
  (Quantity.smul 1.50918896e22 input_flux).qdiv input_wavelength

/-- `input_flux * input_wavelength / constant`, constant = 1.50918896e22 -/
def photon_cmsquared_second_micron2erg_cmsquared_hertz
    (input_flux input_wavelength : Quantity) : Quantity :=
  (input_flux.mul input_wavelength).divc 1.50918896e22

/-- `constant * input_flux * input_wavelength`, constant = 5.03411250e14 -/
def watt_metersquared_micron2photon_cmsquared_second_micron
    (input_flux input_wavelength : Quantity) : Quantity :=
  (Quantity.smul 5.03411250e14 input_flux).mul input_wavelength

/-- `input_flux / input_wavelength / constant`, constant = 5.03411250e14 -/
def photon_cmsquared_second_micron2watt_metersquared_micron
    (input_flux input_wavelength : Quantity) : Except UErr Quantity :=
  (input_flux.qdiv input_wavelength).bind fun q => .ok (q.divc 5.03411250e14)

/-- `constant * input_flux * input_wavelength`, constant = 5.03411250e7 -/
def erg_cmsquared_second_angstrom2photon_cmsquared_second_angstrom
    (input_flux input_wavelength : Quantity) : Quantity :=
  (Quantity.smul 5.03411250e7 input_flux).mul input_wavelength

/-- `input_flux / input_wavelength / constant`, constant = 5.03411250e7 -/
def photon_cmsquared_second_angstrom2erg_cmsquared_second_angstrom
    (input_flux input_wavelength : Quantity) : Except UErr Quantity :=
  (input_flux.qdiv input_wavelength).bind fun q => .ok (q.divc 5.03411250e7)

/-- `constant * input_flux`, constant = 1e26 -/
def watt_metersquared_hertz2jansky (input_flux : Quantity) : Quantity :=
  Quantity.smul 1e26 input_flux

/-- `input_flux / constant`, constant = 1e26 -/
def jansky2watt_metersquared_hertz (input_flux : Quantity) : Quantity :=
  input_flux.divc 1e26

/-- `input_flux * constant`, constant = 1e23 -/
def erg_cmsquared_second_hertz2jansky (input_flux : Quantity) : Quantity :=
  input_flux.mulc 1e23

/-- `input_flux / constant`, constant = 1e23 -/
def jansky2erg_cmsquared_second_hertz (input_flux : Quantity) : Quantity :=
  input_flux.divc 1e23

/-- `constant * input_flux * input_wavelength**2`, `constant = 1e23/2.99792458e14`
(source line 496; the adjacent comments call this constant 3.33564095e4). -/
def erg_cmsquared_second_angstrom2jansky (input_flux input_wavelength : Quantity) : Quantity :=
  (Quantity.smul (1e23 / 2.99792458e14) input_flux).mul (input_wavelength.npow 2)

/-- `input_flux / input_wavelength**2 / constant`, constant = 3.33564095e4 -/
def jansky2erg_cmsquared_second_angstrom
    (input_flux input_wavelength : Quantity) : Except UErr Quantity :=
  (input_flux.qdiv (input_wavelength.npow 2)).bind fun q => .ok (q.divc 3.33564095e4)

/-- composed: `watt_metersquared_micron2watt_metersquared_hertz` then
`watt_metersquared_hertz2jansky` (source lines 540-541). -/
def watt_metersquared_micron2jansky (input_flux input_wavelength : Quantity) : Quantity :=
  watt_metersquared_hertz2jansky
    (watt_metersquared_micron2watt_metersquared_hertz input_flux input_wavelength)

/-- composed: `jansky2watt_metersquared_hertz` then
`watt_metersquared_hertz2watt_metersquared_micron` (source lines 561-562). -/
def jansky2watt_metersquared_micron
    (input_flux input_wavelength : Quantity) : Except UErr Quantity :=
  watt_metersquared_hertz2watt_metersquared_micron
    (jansky2watt_metersquared_hertz input_flux) input_wavelength

/-- `constant * input_flux / input_wavelength`, constant = 1.50918896e3 -/
def jansky2photon_cmsquared_second_angstrom
    (input_flux input_wavelength : Quantity) : Except UErr Quantity :=
  (Quantity.smul 1.50918896e3 input_flux).qdiv input_wavelength

/-- `input_flux * input_wavelength / constant`, constant = 1.50918896e3 -/
def photon_cmsquared_second_angstrom2jansky (input_flux input_wavelength : Quantity) : Quantity :=
  (input_flux.mul input_wavelength).divc 1.50918896e3

/-- `constant * input_flux`, constant = 7.9577539e4 -/
def rayleigh2photon_cmsquared_second_angstrom_steradian (input_flux : Quantity) : Quantity :=
  Quantity.smul 7.9577539e4 input_flux

/-- `input_flux / constant`, constant = 7.9577539e4 -/
def photon_cmsquared_second_angstrom_steradian2rayleigh (input_flux : Quantity) : Quantity :=
  input_flux.divc 7.9577539e4

/-- `constant * input_flux`, constant = 2.4240705e1 -/
def rayleigh2photon_cmsquared_second_angstrom_degreesquared (input_flux : Quantity) : Quantity :=
  Quantity.smul 2.4240705e1 input_flux

/-- `input_flux / constant`, constant = 2.4240705e1 -/
def photon_cmsquared_second_angstrom_degreesquared2rayleigh (input_flux : Quantity) : Quantity :=
  input_flux.divc 2.4240705e1

/-- `constant * input_flux`, constant = 1.8704247e-6 -/
def rayleigh2photon_cmsquared_second_angstrom_arcsecondsquared (input_flux : Quantity) : Quantity :=
  Quantity.smul 1.8704247e-6 input_flux

/-- `constant / input_flux`, constant = 1.8704247e-6 (source line 715: the
constant is divided BY the input flux). -/
def photon_cmsquared_second_angstrom_arcsecondsquared2rayleigh
    (input_flux : Quantity) : Except UErr Quantity :=
  Quantity.cdivq 1.8704247e-6 input_flux

/- Helper lemmas about the quantity subsystem. -/

theorem Quantity.to_ok (q : Quantity) (tgt : AUnit) (h : q.unit.dims = tgt.dims) :
    q.to tgt = .ok ⟨q.value * q.unit.scale / tgt.scale, tgt⟩ := by
  simp [Quantity.to, h]

theorem Quantity.to_mismatch (q : Quantity) (tgt : AUnit) (h : q.unit.dims ≠ tgt.dims) :
    q.to tgt = .error .dimMismatch := by
  simp [Quantity.to, h]

theorem Quantity.to_ne_divZero (q : Quantity) (tgt : AUnit) :
    q.to tgt ≠ .error .divZero := by
  unfold Quantity.to
  split <;> simp

theorem ok_bind (a : Quantity) (g : Quantity → Except UErr Quantity) :
    Except.bind (Except.ok a) g = g a := rfl

theorem error_bind (e : UErr) (g : Quantity → Except UErr Quantity) :
    Except.bind (Except.error e) g = Except.error e := rfl

theorem c_micron_per_second :
    speed_of_light.to micronPerSecond = .ok ⟨2.99792458e14, micronPerSecond⟩ := by
  norm_num [Quantity.to, speed_of_light, micronPerSecond, meterPerSecond]

/- Claim theorems. -/

/-- C1: the spec's round-trip identity `f⁻¹(f(x, λ), λ) = x` (relative error
below 1e-9) FAILS in the code for both pairs the claim singles out.
`photon_cmsquared_second_angstrom_arcsecondsquared2rayleigh` computes
`constant / input_flux`, so the round trip at x = 2 Rayleigh returns 1/2;
`erg_cmsquared_second_angstrom2jansky` multiplies by `1e23/2.99792458e14`
while its inverse divides by `3.33564095e4`, so the round trip at x = 1,
λ = 1 Å returns about 1e4. -/
theorem C1_roundtrip_violated :
    (photon_cmsquared_second_angstrom_arcsecondsquared2rayleigh
        (rayleigh2photon_cmsquared_second_angstrom_arcsecondsquared ⟨2, rayleighU⟩)
      = .ok ⟨1 / 2, AUnit.one.div rayleighU⟩) ∧
    ¬ (|(1 : ℚ) / 2 - 2| ≤ 1e-9 * |(2 : ℚ)|) ∧
    ((jansky2erg_cmsquared_second_angstrom
        (erg_cmsquared_second_angstrom2jansky ⟨1, ergPerSCm2Angstrom⟩ ⟨1, angstrom⟩)
        ⟨1, angstrom⟩).map Quantity.value
      = .ok (1e23 / 2.99792458e14 / 3.33564095e4)) ∧
    ¬ (|(1e23 / 2.99792458e14 / 3.33564095e4 : ℚ) - 1| ≤ 1e-9 * |(1 : ℚ)|) := by
  refine ⟨?_, ?_, ?_, ?_⟩
  · norm_num [photon_cmsquared_second_angstrom_arcsecondsquared2rayleigh,
      rayleigh2photon_cmsquared_second_angstrom_arcsecondsquared, Quantity.cdivq,
      Quantity.smul]
  · norm_num [abs, max_def]
  · norm_num [jansky2erg_cmsquared_second_angstrom, erg_cmsquared_second_angstrom2jansky,
      Quantity.qdiv, Quantity.npow, Quantity.mul, Quantity.smul, Quantity.divc,
      Except.map, ok_bind, error_bind, angstrom, ergPerSCm2Angstrom]
  · norm_num [abs, max_def]

/-- C2: the claim says `frequency2wavelength` accepts frequency-dimensioned
input and returns `speed_of_light / input_frequency` in the output unit.  The
code instead converts the input to meters (source line 117), so every
frequency-dimensioned input fails with a dimension mismatch. -/
theorem C2_frequency2wavelength_rejects_frequency (f : Quantity) (out : AUnit)
    (h : f.unit.dims = frequencyDims) :
    frequency2wavelength f out = .error .dimMismatch := by
  unfold frequency2wavelength
  rw [Quantity.to_mismatch _ _ (by rw [h]; decide)]
  rfl

theorem C2_witness :
    (Quantity.mk 1 hertz).unit.dims = frequencyDims ∧
    frequency2wavelength ⟨1, hertz⟩ meter = .error .dimMismatch :=
  ⟨by decide, C2_frequency2wavelength_rejects_frequency ⟨1, hertz⟩ meter (by decide)⟩

/-- C3: the claim says both directions of the erg·cm⁻²·s⁻¹·Å⁻¹ ↔ Jansky pair
use the constant 3.33564095e4.  The forward function's constant is
`1e23/2.99792458e14`, which is not 3.33564095e4 (it is about 3.3356e8, i.e.
the comment's derivation `10²³/2.99792458×10¹⁴` does not equal its claimed
value), while the inverse does divide by 3.33564095e4. -/
theorem C3_forward_inverse_constant_mismatch :
    (erg_cmsquared_second_angstrom2jansky ⟨1, ergPerSCm2Angstrom⟩ ⟨1, angstrom⟩).value
      = 1e23 / 2.99792458e14 ∧
    (1e23 / 2.99792458e14 : ℚ) ≠ 3.33564095e4 ∧
    ((jansky2erg_cmsquared_second_angstrom ⟨1, jansky⟩ ⟨1, angstrom⟩).map Quantity.value
      = .ok (1 / 3.33564095e4)) := by
  refine ⟨?_, ?_, ?_⟩
  · norm_num [erg_cmsquared_second_angstrom2jansky, Quantity.smul, Quantity.mul,
      Quantity.npow, angstrom, ergPerSCm2Angstrom]
  · norm_num
  · norm_num [jansky2erg_cmsquared_second_angstrom, Quantity.qdiv, Quantity.npow,
      Quantity.divc, Except.map, ok_bind, error_bind, angstrom, jansky]

/-- C4: `fnu2flambda` performs exactly the steps the spec describes:
normalize flux to W·m⁻²·Hz⁻¹, normalize wavelength to micron, multiply the
flux magnitude by (speed of light in micron/second) / wavelength², attach
W·m⁻²·µm⁻¹, convert to the output unit (`fnu2flambda_spec`). -/
theorem C4_fnu2flambda_follows_spec (input_flux input_wavelength : Quantity)
    (output_units : AUnit) :
    fnu2flambda input_flux input_wavelength output_units
      = fnu2flambda_spec input_flux input_wavelength output_units := by
  unfold fnu2flambda fnu2flambda_spec
  cases input_flux.to wattPerM2Hz with
  | error e => rfl
  | ok ic =>
    cases input_wavelength.to micron with
    | error e => rfl
    | ok wc =>
      rw [ok_bind, ok_bind, ok_bind, c_micron_per_second, ok_bind]
      rfl

/-- C6: the composed Jy ↔ W·m⁻²·µm⁻¹ converters are literally the chains of
the two single-hop converters: `jansky2watt_metersquared_micron` equals
`jansky2watt_metersquared_hertz` followed by
`watt_metersquared_hertz2watt_metersquared_micron`, exactly, and
`watt_metersquared_micron2jansky` equals
`watt_metersquared_micron2watt_metersquared_hertz` followed by
`watt_metersquared_hertz2jansky`, exactly. -/
theorem C6_composed_equivalence (input_flux input_wavelength : Quantity) :
    jansky2watt_metersquared_micron input_flux input_wavelength
      = watt_metersquared_hertz2watt_metersquared_micron
          (jansky2watt_metersquared_hertz input_flux) input_wavelength ∧
    watt_metersquared_micron2jansky input_flux input_wavelength
      = watt_metersquared_hertz2jansky
          (watt_metersquared_micron2watt_metersquared_hertz input_flux input_wavelength) :=
  ⟨rfl, rfl⟩

/-- C8: the known-value scenarios:
`watt_metersquared2erg_cmsquared_second(1.0) = 1000.0`,
`watt_metersquared_hertz2jansky(1.0) = 1.0e26`,
`jansky2watt_metersquared_hertz(1.0e26) = 1.0`,
`rayleigh2photon_cmsquared_second_angstrom_steradian(1.0) = 7.9577539e4`,
and `wavelength2frequency` of 1 meter in Hz is the speed of light in m/s. -/
theorem C8_known_values :
    (watt_metersquared2erg_cmsquared_second ⟨1, wattPerM2⟩).value = 1000 ∧
    (watt_metersquared_hertz2jansky ⟨1, wattPerM2Hz⟩).value = 1e26 ∧
    (jansky2watt_metersquared_hertz ⟨1e26, jansky⟩).value = 1 ∧
    (rayleigh2photon_cmsquared_second_angstrom_steradian ⟨1, rayleighU⟩).value
      = 7.9577539e4 ∧
    wavelength2frequency ⟨1, meter⟩ hertz = .ok ⟨299792458, hertz⟩ := by
  refine ⟨?_, ?_, ?_, ?_, ?_⟩
  · norm_num [watt_metersquared2erg_cmsquared_second, Quantity.smul]
  · norm_num [watt_metersquared_hertz2jansky, Quantity.smul]
  · norm_num [jansky2watt_metersquared_hertz, Quantity.divc]
  · norm_num [rayleigh2photon_cmsquared_second_angstrom_steradian, Quantity.smul]
  · norm_num [wavelength2frequency, Quantity.to, Quantity.qdiv, speed_of_light, meter,
      meterPerSecond, hertz, frequencyDims, lengthDims, AUnit.div, Dims.div,
      ok_bind, error_bind]

/-- C10: the claim says every wavelength-free fixed-constant converter returns
a quantity carrying the input's own unit tag with only the magnitude rescaled.
`photon_cmsquared_second_angstrom_arcsecondsquared2rayleigh` violates this: it
computes `constant / input_flux`, so on input 2 photon·cm⁻²·s⁻¹·Å⁻¹·arcsec⁻²
the result carries the algebraic INVERSE of the input's unit tag, and its
magnitude is constant/2 rather than a rescaling 2/constant of the input. -/
theorem C10_unit_tag_violated :
    photon_cmsquared_second_angstrom_arcsecondsquared2rayleigh ⟨2, photonCm2SAngArcsec2⟩
      = .ok ⟨1.8704247e-6 / 2, AUnit.one.div photonCm2SAngArcsec2⟩ ∧
    AUnit.one.div photonCm2SAngArcsec2 ≠ photonCm2SAngArcsec2 ∧
    (1.8704247e-6 / 2 : ℚ) ≠ 2 / 1.8704247e-6 := by
  refine ⟨?_, ?_, ?_⟩
  · norm_num [photon_cmsquared_second_angstrom_arcsecondsquared2rayleigh, Quantity.cdivq]
  · norm_num [AUnit.one, AUnit.div, Dims.one, Dims.div, photonCm2SAngArcsec2]
  · norm_num

/-- Checked division succeeds whenever the divisor magnitude is nonzero. -/
theorem qdiv_ok (a b : Quantity) (h : b.value ≠ 0) :
    a.qdiv b = .ok ⟨a.value / b.value, a.unit.div b.unit⟩ := by
  unfold Quantity.qdiv
  rw [if_neg h]

/-- Checked scalar-by-quantity division succeeds whenever the divisor
magnitude is nonzero. -/
theorem cdivq_ok (c : ℚ) (b : Quantity) (h : b.value ≠ 0) :
    Quantity.cdivq c b = .ok ⟨c / b.value, AUnit.one.div b.unit⟩ := by
  unfold Quantity.cdivq
  rw [if_neg h]

/-- Closed form of a successful `fnu2flambda` call. -/
theorem fnu2flambda_ok (f w : Quantity) (out : AUnit) (hf : f.unit.dims = fnuDims)
    (hw : w.unit.dims = lengthDims) (hout : out.dims = flambdaDims)
    (hwv : w.value * w.unit.scale ≠ 0) :
    fnu2flambda f w out = .ok ⟨2.99792458e14 * (f.value * f.unit.scale) /
        (w.value * w.unit.scale * 10 ^ 6) ^ 2 * 10 ^ 6 / out.scale, out⟩ := by
  have hwc : w.value * w.unit.scale / micron.scale ≠ 0 :=
    div_ne_zero hwv (by norm_num [micron])
  have hfok : f.to wattPerM2Hz =
      .ok ⟨f.value * f.unit.scale / wattPerM2Hz.scale, wattPerM2Hz⟩ :=
    Quantity.to_ok _ _ (by rw [hf]; rfl)
  have hwok : w.to micron = .ok ⟨w.value * w.unit.scale / micron.scale, micron⟩ :=
    Quantity.to_ok _ _ (by rw [hw]; rfl)
  have hguard : ¬ ((Quantity.mk (w.value * w.unit.scale / micron.scale) micron).value ^ 2 = 0) := by
    simpa using pow_ne_zero 2 hwc
  unfold fnu2flambda
  rw [hfok, ok_bind, hwok, ok_bind, c_micron_per_second, ok_bind, if_neg hguard,
    Quantity.to_ok _ _ (show wattPerM2Micron.dims = out.dims by rw [hout]; rfl)]
  congr 1
  simp only [micron, wattPerM2Hz, wattPerM2Micron, micronPerSecond]
  congr 1
  field_simp

/-- Closed form of a successful `flambda2fnu` call. -/
theorem flambda2fnu_ok (f w : Quantity) (out : AUnit) (hf : f.unit.dims = flambdaDims)
    (hw : w.unit.dims = lengthDims) (hout : out.dims = fnuDims) :
    flambda2fnu f w out = .ok ⟨f.value * f.unit.scale / 10 ^ 6 *
        (w.value * w.unit.scale * 10 ^ 6) ^ 2 / 2.99792458e14 / out.scale, out⟩ := by
  have hfok : f.to wattPerM2Micron =
      .ok ⟨f.value * f.unit.scale / wattPerM2Micron.scale, wattPerM2Micron⟩ :=
    Quantity.to_ok _ _ (by rw [hf]; rfl)
  have hwok : w.to micron = .ok ⟨w.value * w.unit.scale / micron.scale, micron⟩ :=
    Quantity.to_ok _ _ (by rw [hw]; rfl)
  unfold flambda2fnu
  rw [hfok, ok_bind, hwok, ok_bind, c_micron_per_second, ok_bind,
    Quantity.to_ok _ _ (show wattPerM2Hz.dims = out.dims by rw [hout]; rfl)]
  congr 1
  simp only [micron, wattPerM2Micron, wattPerM2Hz, micronPerSecond]
  congr 1
  field_simp

/-- C5: `fnu2flambda` followed by `flambda2fnu` with the same wavelength and
matching canonical units returns the original flux, expressed in the
requested output unit, within relative tolerance 1e-9, for arbitrary
dimensionally compatible input, intermediate and output unit choices (in the
exact-rational model the round trip is exact). -/
theorem C5_fnu_flambda_roundtrip (f w : Quantity) (mid out : AUnit)
    (hf : f.unit.dims = fnuDims) (hw : w.unit.dims = lengthDims)
    (hmid : mid.dims = flambdaDims) (hout : out.dims = fnuDims)
    (hwv : w.value * w.unit.scale ≠ 0) (hms : mid.scale ≠ 0) :
    ∃ y, ((fnu2flambda f w mid).bind fun g => flambda2fnu g w out) = .ok y ∧
      y.unit = out ∧
      |y.value - f.value * f.unit.scale / out.scale| ≤
        1e-9 * |f.value * f.unit.scale / out.scale| := by
  have hW : w.value * w.unit.scale * 10 ^ 6 ≠ 0 := mul_ne_zero hwv (by norm_num)
  refine ⟨⟨f.value * f.unit.scale / out.scale, out⟩, ?_, rfl, ?_⟩
  · rw [fnu2flambda_ok f w mid hf hw hmid hwv, ok_bind,
      flambda2fnu_ok _ w out hmid hw hout]
    congr 2
    dsimp only
    rw [div_mul_cancel₀ _ hms,
      mul_div_cancel_right₀ _ (by norm_num : (10 ^ 6 : ℚ) ≠ 0),
      div_mul_cancel₀ _ (pow_ne_zero 2 hW),
      mul_div_cancel_left₀ _ (by norm_num : (2.99792458e14 : ℚ) ≠ 0)]
  · rw [sub_self, abs_zero]
    positivity

theorem C5_witness :
    ∃ y, ((fnu2flambda ⟨3, ergPerSCm2Hz⟩ ⟨500, nanometer⟩ wattPerM2Micron).bind
        fun g => flambda2fnu g ⟨500, nanometer⟩ wattPerM2Hz) = .ok y ∧
      y.unit = wattPerM2Hz ∧
      |y.value - (Quantity.mk 3 ergPerSCm2Hz).value * (Quantity.mk 3 ergPerSCm2Hz).unit.scale
          / wattPerM2Hz.scale| ≤
        1e-9 * |(Quantity.mk 3 ergPerSCm2Hz).value * (Quantity.mk 3 ergPerSCm2Hz).unit.scale
          / wattPerM2Hz.scale| :=
  C5_fnu_flambda_roundtrip ⟨3, ergPerSCm2Hz⟩ ⟨500, nanometer⟩ wattPerM2Micron wattPerM2Hz
    (by decide) (by decide) (by decide) (by decide) (by norm_num [nanometer])
    (by norm_num [wattPerM2Micron])

/-- C7: calling a generic converter (`fnu2flambda`, `flambda2fnu`,
`wavelength2frequency`) with a wavelength quantity expressed in a time unit
fails with the dimension-mismatch error propagated from the quantity
subsystem's conversion; no numeric result is returned. -/
theorem C7_time_wavelength_dim_mismatch (input_flux w : Quantity) (out : AUnit)
    (hw : w.unit.dims = timeDims) :
    fnu2flambda input_flux w out = .error .dimMismatch ∧
    flambda2fnu input_flux w out = .error .dimMismatch ∧
    wavelength2frequency w out = .error .dimMismatch := by
  have hwm : w.to micron = .error .dimMismatch :=
    Quantity.to_mismatch _ _ (by rw [hw]; decide)
  have hwmeter : w.to meter = .error .dimMismatch :=
    Quantity.to_mismatch _ _ (by rw [hw]; decide)
  refine ⟨?_, ?_, ?_⟩
  · unfold fnu2flambda
    by_cases hf : input_flux.unit.dims = wattPerM2Hz.dims
    · rw [Quantity.to_ok _ _ hf, ok_bind, hwm, error_bind]
    · rw [Quantity.to_mismatch _ _ hf, error_bind]
  · unfold flambda2fnu
    by_cases hf : input_flux.unit.dims = wattPerM2Micron.dims
    · rw [Quantity.to_ok _ _ hf, ok_bind, hwm, error_bind]
    · rw [Quantity.to_mismatch _ _ hf, error_bind]
  · unfold wavelength2frequency
    rw [hwmeter, error_bind]

theorem C7_witness :
    (Quantity.mk 1 second).unit.dims = timeDims ∧
    (fnu2flambda ⟨1, wattPerM2Hz⟩ ⟨1, second⟩ wattPerM2Micron = .error .dimMismatch ∧
     flambda2fnu ⟨1, wattPerM2Hz⟩ ⟨1, second⟩ wattPerM2Micron = .error .dimMismatch ∧
     wavelength2frequency ⟨1, second⟩ wattPerM2Micron = .error .dimMismatch) :=
  ⟨by decide, C7_time_wavelength_dim_mismatch ⟨1, wattPerM2Hz⟩ ⟨1, second⟩ wattPerM2Micron
    (by decide)⟩

/-- C9: under the precondition that the divisor magnitude is nonzero (the
wavelength magnitude, or the input flux magnitude for
`photon_cmsquared_second_angstrom_arcsecondsquared2rayleigh`), every division
in the listed converters is well-defined: the division-by-zero branch is
unreachable and each call that divides by a runtime input succeeds (none of
the converters guards against a zero divisor itself). -/
theorem C9_division_safety (f w : Quantity) (out : AUnit)
    (hfv : f.value ≠ 0) (hwv : w.value ≠ 0) (hws : w.unit.scale ≠ 0) :
    fnu2flambda f w out ≠ .error .divZero ∧
    (∃ q, watt_metersquared_hertz2erg_cmsquared_second_angstrom f w = .ok q) ∧
    (∃ q, watt_metersquared_hertz2watt_metersquared_micron f w = .ok q) ∧
    (∃ q, photon_cmsquared_second_micron2watt_metersquared_micron f w = .ok q) ∧
    (∃ q, photon_cmsquared_second_angstrom2erg_cmsquared_second_angstrom f w = .ok q) ∧
    (∃ q, jansky2erg_cmsquared_second_angstrom f w = .ok q) ∧
    (∃ q, jansky2photon_cmsquared_second_angstrom f w = .ok q) ∧
    (∃ q, photon_cmsquared_second_angstrom_arcsecondsquared2rayleigh f = .ok q) := by
  have hw2 : (w.npow 2).value ≠ 0 := by
    simp only [Quantity.npow]
    exact pow_ne_zero 2 hwv
  refine ⟨?_, ?_, ?_, ?_, ?_, ?_, ?_, ?_⟩
  · unfold fnu2flambda
    by_cases hfd : f.unit.dims = wattPerM2Hz.dims
    · by_cases hwd : w.unit.dims = micron.dims
      · have hguard :
            ¬ ((Quantity.mk (w.value * w.unit.scale / micron.scale) micron).value ^ 2 = 0) := by
          simpa using pow_ne_zero 2 (div_ne_zero (mul_ne_zero hwv hws) (by norm_num [micron]))
        rw [Quantity.to_ok _ _ hfd, ok_bind, Quantity.to_ok _ _ hwd, ok_bind,
          c_micron_per_second, ok_bind, if_neg hguard]
        exact Quantity.to_ne_divZero _ _
      · rw [Quantity.to_ok _ _ hfd, ok_bind, Quantity.to_mismatch _ _ hwd, error_bind]
        simp
    · rw [Quantity.to_mismatch _ _ hfd, error_bind]
      simp
  · exact ⟨_, qdiv_ok _ _ hw2⟩
  · exact ⟨_, qdiv_ok _ _ hw2⟩
  · exact ⟨_, by
      unfold photon_cmsquared_second_micron2watt_metersquared_micron
      rw [qdiv_ok f w hwv, ok_bind]⟩
  · exact ⟨_, by
      unfold photon_cmsquared_second_angstrom2erg_cmsquared_second_angstrom
      rw [qdiv_ok f w hwv, ok_bind]⟩
  · exact ⟨_, by
      unfold jansky2erg_cmsquared_second_angstrom
      rw [qdiv_ok f (w.npow 2) hw2, ok_bind]⟩
  · exact ⟨_, qdiv_ok _ _ hwv⟩
  · exact ⟨_, cdivq_ok _ _ hfv⟩

theorem C9_witness :
    fnu2flambda ⟨3, wattPerM2Hz⟩ ⟨2, angstrom⟩ ergPerSCm2Angstrom ≠ .error .divZero ∧
    (∃ q, watt_metersquared_hertz2erg_cmsquared_second_angstrom ⟨3, wattPerM2Hz⟩ ⟨2, angstrom⟩
      = .ok q) ∧
    (∃ q, watt_metersquared_hertz2watt_metersquared_micron ⟨3, wattPerM2Hz⟩ ⟨2, angstrom⟩
      = .ok q) ∧
    (∃ q, photon_cmsquared_second_micron2watt_metersquared_micron ⟨3, wattPerM2Hz⟩ ⟨2, angstrom⟩
      = .ok q) ∧
    (∃ q, photon_cmsquared_second_angstrom2erg_cmsquared_second_angstrom
      ⟨3, wattPerM2Hz⟩ ⟨2, angstrom⟩ = .ok q) ∧
    (∃ q, jansky2erg_cmsquared_second_angstrom ⟨3, wattPerM2Hz⟩ ⟨2, angstrom⟩ = .ok q) ∧
    (∃ q, jansky2photon_cmsquared_second_angstrom ⟨3, wattPerM2Hz⟩ ⟨2, angstrom⟩ = .ok q) ∧
    (∃ q, photon_cmsquared_second_angstrom_arcsecondsquared2rayleigh ⟨3, wattPerM2Hz⟩ = .ok q) :=
  C9_division_safety ⟨3, wattPerM2Hz⟩ ⟨2, angstrom⟩ ergPerSCm2Angstrom
    (by norm_num) (by norm_num) (by norm_num [angstrom])

end RadiationUnits
